import Mathlib

/-!
Shallow embedding of `src/atom-tanstack-db.ts` (tanstack-db-atom): reactive
atoms bridging TanStack DB collections to Result-valued cells.

The collection collaborator is modelled by its observed interface: a lifecycle
status, a list of key/value entries, a sync flag and a config record.  Each
atom constructor is modelled as one evaluation of its `Atom.readable` body: a
function of the backing collection and an evaluation context that records the
live subscriptions, the registered finalizers and an ordered trace of the
effects performed (start sync, create collection, subscribe, add finalizer,
sample status).  The change-notification callback installed by
`subscribeChanges` is embedded as a pure function from the collection state at
notification time to the ResultState pushed via `get.setSelf`; the value a
reader of the cell sees after a run of notifications is the fold of that
callback over the successive collection states.
-/

/-- Modelled from the spec: the five-value lifecycle status enum of the
collection collaborator (`CollectionStatus` is re-exported from `src/types.ts`,
which holds only type declarations and is not among the sources; the spec fixes
the enum as `idle | loading | ready | error | cleaned-up`). -/
inductive CollectionStatus where
  | idle
  | loading
  | ready
  | error
  | cleanedUp
deriving DecidableEq

/-- The three-variant value the atoms produce: `Result.initial waiting`,
`Result.success value`, `Result.fail error`.  The `Error` object is modelled
by its message string. -/
inductive ResultState (A : Type) where
  | initial (waiting : Bool)
  | success (value : A)
  | failure (message : String)
deriving DecidableEq

/-- The slice of the collection configuration the source reads:
`config.singleResult` (line 185/212) plus the `startSync` / `gcTime` values a
live query collection is created with. -/
structure CollectionConfig where
  startSync : Bool
  gcTime : Nat
  singleResult : Bool
deriving DecidableEq

/-- A TanStack DB collection as observed by the source: `status`, `entries()`
(an ordered key/value list), whether sync has been started, and its config. -/
structure Collection (K A : Type) where
  status : CollectionStatus
  entries : List (K × A)
  syncStarted : Bool
  config : CollectionConfig
deriving DecidableEq

/-- Result value of a `makeQuery` atom: the source collapses single-result and
array-result collections into one value (`entries[0]` vs `entries`, lines
184-188); the embedding keeps them apart with an explicit tag. -/
inductive QueryData (A : Type) where
  | single (value : Option A)
  | many (values : List A)
deriving DecidableEq

/-- The `QueryOptions` record of `src/types.ts` as used by the source:
optional `startSync`, `gcTime` and `suspendOnWaiting`. -/
structure QueryOptions where
  startSync : Option Bool
  gcTime : Option Nat
  suspendOnWaiting : Option Bool
deriving DecidableEq

/-- The config handed to `createLiveQueryCollection` (lines 158-162). -/
structure LiveQueryConfig where
  startSync : Bool
  gcTime : Nat
deriving DecidableEq

/-- Resolution of the optional fields, mirroring
`options?.startSync ?? true` and `options?.gcTime ?? 0` (lines 160-161). -/
def resolveLiveQueryConfig (opts : QueryOptions) : LiveQueryConfig :=
  { startSync := opts.startSync.getD true, gcTime := opts.gcTime.getD 0 }

/-- One observable effect performed while an atom body evaluates. -/
inductive AtomEvent where
  | startSync
  | createCollection
  | subscribe (id : Nat)
  | addFinalizer
  | sampleStatus
deriving DecidableEq

/-- Evaluation context of one `Atom.readable` body: ids of live subscriptions,
the next fresh subscription id, the subscription ids the registered finalizers
will release, and the ordered effect trace. -/
structure AtomCtx where
  liveSubs : List Nat
  nextSubId : Nat
  finalizers : List Nat
  trace : List AtomEvent
deriving DecidableEq

/-- A fresh evaluation context. -/
def AtomCtx.init : AtomCtx := ⟨[], 0, [], []⟩

/-- The `collection.startSyncImmediate()` call (line 31/93): begins syncing if
not already started; on the collection state this sets the sync flag and
changes nothing else. -/
def startSyncImmediate {K A : Type} (c : Collection K A) : Collection K A :=
  { c with syncStarted := true }

/-- Record one effect in the evaluation trace. -/
def logEvent (e : AtomEvent) (w : AtomCtx) : AtomCtx :=
  { w with trace := w.trace ++ [e] }

/-- The `collection.subscribeChanges(cb)` call: allocates a fresh subscription,
returns its handle id. -/
def subscribeChanges (w : AtomCtx) : Nat × AtomCtx :=
  (w.nextSubId,
   { w with
      liveSubs := w.liveSubs ++ [w.nextSubId],
      nextSubId := w.nextSubId + 1,
      trace := w.trace ++ [AtomEvent.subscribe w.nextSubId] })

/-- The `get.addFinalizer(() => subscription.unsubscribe())` call (lines
58-60): registers one finalizer whose action releases the given
subscription. -/
def addFinalizer (sid : Nat) (w : AtomCtx) : AtomCtx :=
  { w with
     finalizers := w.finalizers ++ [sid],
     trace := w.trace ++ [AtomEvent.addFinalizer] }

/-- The `subscription.unsubscribe()` action: the subscription with this id
stops being live. -/
def unsubscribe (sid : Nat) (w : AtomCtx) : AtomCtx :=
  { w with liveSubs := w.liveSubs.filter (fun s => s != sid) }

/-- Number of `subscribe` events in a trace. -/
def subscribeCount (tr : List AtomEvent) : Nat :=
  tr.countP (fun e => match e with | AtomEvent.subscribe _ => true | _ => false)

/-- Body of the `subscribeChanges` callback of `makeCollectionAtom` (lines
35-55), as a function of the collection state at notification time; the
returned ResultState is what `get.setSelf` pushes. -/
def collectionAtomCallback {K A : Type} (c : Collection K A) : ResultState (List A) :=
  if c.status = CollectionStatus.error then
    ResultState.failure "Collection failed to load"
  else if c.status = CollectionStatus.loading ∨ c.status = CollectionStatus.idle then
    ResultState.initial true
  else if c.status = CollectionStatus.cleanedUp then
    ResultState.failure "Collection has been cleaned up"
  else
    ResultState.success (c.entries.map Prod.snd)

/-- The initial synchronous return value of `makeCollectionAtom` (lines
62-81), computed from the status sampled after the subscription is set up. -/
def collectionAtomInitialRead {K A : Type} (c : Collection K A) : ResultState (List A) :=
  if c.status = CollectionStatus.error then
    ResultState.failure "Collection failed to load"
  else if c.status = CollectionStatus.loading ∨ c.status = CollectionStatus.idle then
    ResultState.initial true
  else if c.status = CollectionStatus.cleanedUp then
    ResultState.failure "Collection has been cleaned up"
  else
    ResultState.success (c.entries.map Prod.snd)

/-- Body of the `subscribeChanges` callback of `makeSingleCollectionAtom`
(lines 97-118): like the array case but projecting
`entries.length > 0 ? entries[0][1] : undefined`. -/
def singleCollectionAtomCallback {K A : Type} (c : Collection K A) : ResultState (Option A) :=
  if c.status = CollectionStatus.error then
    ResultState.failure "Collection failed to load"
  else if c.status = CollectionStatus.loading ∨ c.status = CollectionStatus.idle then
    ResultState.initial true
  else if c.status = CollectionStatus.cleanedUp then
    ResultState.failure "Collection has been cleaned up"
  else
    ResultState.success (c.entries.head?.map Prod.snd)

/-- The initial synchronous return value of `makeSingleCollectionAtom` (lines
125-145). -/
def singleCollectionAtomInitialRead {K A : Type} (c : Collection K A) : ResultState (Option A) :=
  if c.status = CollectionStatus.error then
    ResultState.failure "Collection failed to load"
  else if c.status = CollectionStatus.loading ∨ c.status = CollectionStatus.idle then
    ResultState.initial true
  else if c.status = CollectionStatus.cleanedUp then
    ResultState.failure "Collection has been cleaned up"
  else
    ResultState.success (c.entries.head?.map Prod.snd)

/-- Body of the `subscribeChanges` callback of `makeQuery` (lines 166-189):
reads `config.singleResult` at notification time and projects either the
first entry or the whole entry list. -/
def queryAtomCallback {K A : Type} (c : Collection K A) : ResultState (QueryData A) :=
  if c.status = CollectionStatus.error then
    ResultState.failure "Query failed to load"
  else if c.status = CollectionStatus.loading ∨ c.status = CollectionStatus.idle then
    ResultState.initial true
  else if c.status = CollectionStatus.cleanedUp then
    ResultState.failure "Query collection has been cleaned up"
  else
    let isSingleResult := c.config.singleResult
    let entries := c.entries.map Prod.snd
    ResultState.success (if isSingleResult then QueryData.single entries.head? else QueryData.many entries)

/-- The initial synchronous return value of `makeQuery` (lines 196-217). -/
def queryAtomInitialRead {K A : Type} (c : Collection K A) : ResultState (QueryData A) :=
  if c.status = CollectionStatus.error then
    ResultState.failure "Query failed to load"
  else if c.status = CollectionStatus.loading ∨ c.status = CollectionStatus.idle then
    ResultState.initial true
  else if c.status = CollectionStatus.cleanedUp then
    ResultState.failure "Query collection has been cleaned up"
  else
    let isSingleResult := c.config.singleResult
    let entries := c.entries.map Prod.snd
    ResultState.success (if isSingleResult then QueryData.single entries.head? else QueryData.many entries)

/-- One evaluation of the `makeCollectionAtom` readable body (lines 29-81), in
source statement order: start sync, subscribe, register finalizer, sample the
status and return the initial ResultState.  Returns the value, the collection
after the evaluation's effects and the evaluation context. -/
def makeCollectionAtom {K A : Type} (c : Collection K A) (w : AtomCtx) :
    ResultState (List A) × Collection K A × AtomCtx :=
  let c := startSyncImmediate c
  let w := logEvent AtomEvent.startSync w
  let p := subscribeChanges w
  let w := addFinalizer p.1 p.2
  let w := logEvent AtomEvent.sampleStatus w
  (collectionAtomInitialRead c, c, w)

/-- One evaluation of the `makeSingleCollectionAtom` readable body (lines
91-145). -/
def makeSingleCollectionAtom {K A : Type} (c : Collection K A) (w : AtomCtx) :
    ResultState (Option A) × Collection K A × AtomCtx :=
  let c := startSyncImmediate c
  let w := logEvent AtomEvent.startSync w
  let p := subscribeChanges w
  let w := addFinalizer p.1 p.2
  let w := logEvent AtomEvent.sampleStatus w
  (singleCollectionAtomInitialRead c, c, w)

/-- One evaluation of the `makeQuery` readable body (lines 156-217).  The
external query engine is a parameter `create` producing the live query
collection from the resolved config (`createLiveQueryCollection`, lines
158-162); the evaluation then subscribes, registers the finalizer and samples
the status exactly as the collection atoms do. -/
def makeQuery {K A : Type} (create : LiveQueryConfig → Collection K A)
    (opts : QueryOptions) (w : AtomCtx) :
    ResultState (QueryData A) × Collection K A × AtomCtx :=
  let coll := create (resolveLiveQueryConfig opts)
  let w := logEvent AtomEvent.createCollection w
  let p := subscribeChanges w
  let w := addFinalizer p.1 p.2
  let w := logEvent AtomEvent.sampleStatus w
  (queryAtomInitialRead coll, coll, w)

/-- The `Result.getOrElse` combinator as used at line 230: the success value,
or the fallback.  `T | undefined` is modelled as `Option`. -/
def Result.getOrElse {B : Type} (r : ResultState B) (orElse : Unit → Option B) : Option B :=
  match r with
  | ResultState.success v => some v
  | _ => orElse ()

/-- The `constUndefined` fallback (effect/Function). -/
def constUndefined {B : Type} : Unit → Option B := fun _ => none

/-- One evaluation of the `makeQueryUnsafe` readable body (lines 228-231):
reads the `makeQuery` cell and collapses its ResultState with
`Result.getOrElse(result, constUndefined)`. -/
def makeQueryUnsafe {K A : Type} (create : LiveQueryConfig → Collection K A)
    (opts : QueryOptions) (w : AtomCtx) :
    Option (QueryData A) × Collection K A × AtomCtx :=
  let r := makeQuery create opts w
  (Result.getOrElse r.1 constUndefined, r.2.1, r.2.2)

/-- A value a query-descriptor function may see or return for its builder
argument: the stand-in proxy builder of `makeQueryConditional`, or a real
query object of some type `Q`. -/
inductive BuilderVal (Q : Type) where
  | proxy
  | real (q : Q)
deriving DecidableEq

/-- The proxy `get` handler (lines 247-254): any property access sets
`queryReturnsNull := false` and returns a function that, on any arguments,
returns the proxy builder again. -/
def proxyGet (Q : Type) (_queryReturnsNull : Bool) (_name : String) :
    Bool × (List (BuilderVal Q) → BuilderVal Q) :=
  (false, fun _ => BuilderVal.proxy)

/-- Running a chain of `name(args)` method calls against the proxy builder,
threading the `queryReturnsNull` flag: each step accesses the property via the
proxy handler and calls the returned function.  Real query execution could
only occur if a step ever produced a `BuilderVal.real` value. -/
def applyProxyChain (Q : Type) : Bool → List (String × List (BuilderVal Q)) → BuilderVal Q × Bool
  | flag, [] => (BuilderVal.proxy, flag)
  | flag, (name, args) :: rest =>
    match (proxyGet Q flag name).2 args with
    | BuilderVal.proxy => applyProxyChain Q (proxyGet Q flag name).1 rest
    | BuilderVal.real q => (BuilderVal.real q, (proxyGet Q flag name).1)

/-- One evaluation of the `makeQueryConditional` readable body (lines
242-268): probe the descriptor with the proxy builder; the proxy's accesses
only ever write `false` into `queryReturnsNull` (see `proxyGet`), so the flag
ends up `true` exactly when the probe call returned the disabled marker.
Disabled: the value is `undefined`, no collection exists and the context is
untouched.  Enabled: delegate to `makeQuery` with the same descriptor and
options. -/
def makeQueryConditional {K A Q : Type} (qf : BuilderVal Q → Option (BuilderVal Q))
    (create : LiveQueryConfig → Collection K A) (opts : QueryOptions) (w : AtomCtx) :
    Option (ResultState (QueryData A)) × Option (Collection K A) × AtomCtx :=
  let queryReturnsNull := false
  let query := qf BuilderVal.proxy
  let queryReturnsNull := if query.isNone then true else queryReturnsNull
  if queryReturnsNull then (none, none, w)
  else
    let r := makeQuery create opts w
    (some r.1, some r.2.1, r.2.2)

/-- Value visible to readers of a cell after a run of change notifications:
every notification runs the callback on the collection state of that moment
and `get.setSelf` replaces the visible value with the callback's result,
regardless of the previous value. -/
def cellValueAfter {K A B : Type} (init : B) (callback : Collection K A → B)
    (updates : List (Collection K A)) : B :=
  updates.foldl (fun _cell c => callback c) init

/-- Full sequence of ResultState values a `makeQuery` cell emits for one
evaluation followed by a run of notifications. -/
def queryResultSequence {K A : Type} (create : LiveQueryConfig → Collection K A)
    (opts : QueryOptions) (w : AtomCtx) (updates : List (Collection K A)) :
    List (ResultState (QueryData A)) :=
  (makeQuery create opts w).1 :: updates.map queryAtomCallback

/-- Full value sequence of a `makeQueryConditional` cell: `none` when the
evaluation disabled the query, otherwise the sequence the delegated
`makeQuery` cell emits. -/
def conditionalResultSequence {K A Q : Type} (qf : BuilderVal Q → Option (BuilderVal Q))
    (create : LiveQueryConfig → Collection K A) (opts : QueryOptions) (w : AtomCtx)
    (updates : List (Collection K A)) : Option (List (ResultState (QueryData A))) :=
  match (makeQueryConditional qf create opts w).1 with
  | none => none
  | some r => some (r :: updates.map queryAtomCallback)

/-- Visible value of the `makeQueryUnsafe` cell after a run of notifications:
the derived cell recomputes `Result.getOrElse` on every value of the
underlying `makeQuery` cell. -/
def collapsedCellAfter {K A : Type} (create : LiveQueryConfig → Collection K A)
    (opts : QueryOptions) (w : AtomCtx) (updates : List (Collection K A)) :
    Option (QueryData A) :=
  Result.getOrElse (cellValueAfter (makeQuery create opts w).1 queryAtomCallback updates) constUndefined

/-- Spec-side transcription of the §3 status table: idle and loading give
Initial with waiting true, ready gives Success of the projected entries,
error and cleaned-up give the two Failure messages. -/
def statusTable {K A B : Type} (c : Collection K A) (projector : Collection K A → B)
    (loadFailMsg cleanedUpMsg : String) : ResultState B :=
  match c.status with
  | CollectionStatus.idle => ResultState.initial true
  | CollectionStatus.loading => ResultState.initial true
  | CollectionStatus.ready => ResultState.success (projector c)
  | CollectionStatus.error => ResultState.failure loadFailMsg
  | CollectionStatus.cleanedUp => ResultState.failure cleanedUpMsg

/-- A context is fresh when every recorded subscription id is below the next
id to allocate. -/
def AtomCtx.Fresh (w : AtomCtx) : Prop :=
  (∀ s ∈ w.liveSubs, s < w.nextSubId) ∧ (∀ s ∈ w.finalizers, s < w.nextSubId)

/-- Sample concrete collections and engines used by witnesses. -/
def cfgDefault : CollectionConfig := ⟨true, 0, false⟩

def cfgSingle : CollectionConfig := ⟨true, 0, true⟩

def cReadyNat : Collection Nat Nat := ⟨CollectionStatus.ready, [(1, 10), (2, 20)], true, cfgDefault⟩

def cErrNat : Collection Nat Nat := ⟨CollectionStatus.error, [(1, 10)], true, cfgDefault⟩

def cLoadNat : Collection Nat Nat := ⟨CollectionStatus.loading, [], false, cfgDefault⟩

def cSingleEmptyNat : Collection Nat Nat := ⟨CollectionStatus.ready, [], true, cfgSingle⟩

/-- A concrete engine honouring the resolved config: the created collection
starts loading, is syncing exactly when `startSync` was requested, and keeps
the config it was created with. -/
def engineNat : LiveQueryConfig → Collection Nat Nat :=
  fun cfg => ⟨CollectionStatus.loading, [], cfg.startSync, ⟨cfg.startSync, cfg.gcTime, false⟩⟩

def optsNone : QueryOptions := ⟨none, none, none⟩

def optsNoSync : QueryOptions := ⟨some false, none, none⟩

/-- A descriptor that always returns the disabled marker. -/
def qfDisabled : BuilderVal Unit → Option (BuilderVal Unit) := fun _ => none

/-- A descriptor that returns the builder it was given. -/
def qfEnabled : BuilderVal Unit → Option (BuilderVal Unit) := fun b => some b

/-! Helper lemmas shared by the claim theorems. -/

/-- Helper: the array-collection callback realises the §3 status table. -/
theorem collection_callback_spec {K A : Type} (c : Collection K A) :
    collectionAtomCallback c
      = statusTable c (fun c => c.entries.map Prod.snd)
          "Collection failed to load" "Collection has been cleaned up" := by
  rcases c with ⟨st, es, ss, cfg⟩
  cases st <;> rfl

/-- Helper: the single-collection callback realises the §3 status table. -/
theorem single_callback_spec {K A : Type} (c : Collection K A) :
    singleCollectionAtomCallback c
      = statusTable c (fun c => c.entries.head?.map Prod.snd)
          "Collection failed to load" "Collection has been cleaned up" := by
  rcases c with ⟨st, es, ss, cfg⟩
  cases st <;> rfl

/-- Helper: the query callback realises the §3 status table with the
config-directed projector. -/
theorem query_callback_spec {K A : Type} (c : Collection K A) :
    queryAtomCallback c
      = statusTable c
          (fun c =>
            if c.config.singleResult then QueryData.single ((c.entries.map Prod.snd).head?)
            else QueryData.many (c.entries.map Prod.snd))
          "Query failed to load" "Query collection has been cleaned up" := by
  rcases c with ⟨st, es, ss, cfg⟩
  cases st <;> rfl

/-- Helper: a cell whose every notification replaces the visible value holds,
after a non-empty run of notifications, the callback image of the last one. -/
theorem foldl_replace_last {B C : Type} (f : C → B) (l : List C) :
    ∀ (init : B) (h : l ≠ []), l.foldl (fun _b c => f c) init = f (l.getLast h) := by
  induction l with
  | nil => intro init h; exact absurd rfl h
  | cons c rest ih =>
    intro init h
    cases rest with
    | nil => rfl
    | cons c2 r2 =>
      rw [List.foldl_cons, ih (f c) (by simp)]
      congr 1

/-- Helper: on error or cleaned-up status the table yields a Failure, never a
Success. -/
theorem statusTable_failure_not_success {K A B : Type} (c : Collection K A)
    (projector : Collection K A → B) (m1 m2 : String)
    (h : c.status = CollectionStatus.error ∨ c.status = CollectionStatus.cleanedUp) :
    ∀ v, statusTable c projector m1 m2 ≠ ResultState.success v := by
  intro v hv
  rcases h with h | h <;> simp [statusTable, h] at hv

/-- Helper: a chain of method calls on the proxy builder always lands on the
proxy builder again. -/
theorem applyProxyChain_fst (Q : Type) :
    ∀ (chain : List (String × List (BuilderVal Q))) (flag : Bool),
      (applyProxyChain Q flag chain).1 = BuilderVal.proxy
  | [], _ => rfl
  | (_n, _a) :: rest, _flag => applyProxyChain_fst Q rest false

/-- Helper: the evaluation context after one `makeCollectionAtom` body run. -/
theorem ctx_after_makeCollectionAtom {K A : Type} (c : Collection K A) (w : AtomCtx) :
    (makeCollectionAtom c w).2.2
      = ⟨w.liveSubs ++ [w.nextSubId], w.nextSubId + 1, w.finalizers ++ [w.nextSubId],
         (((w.trace ++ [AtomEvent.startSync]) ++ [AtomEvent.subscribe w.nextSubId])
            ++ [AtomEvent.addFinalizer]) ++ [AtomEvent.sampleStatus]⟩ := rfl

/-- Helper: the evaluation context after one `makeSingleCollectionAtom` body
run. -/
theorem ctx_after_makeSingleCollectionAtom {K A : Type} (c : Collection K A) (w : AtomCtx) :
    (makeSingleCollectionAtom c w).2.2
      = ⟨w.liveSubs ++ [w.nextSubId], w.nextSubId + 1, w.finalizers ++ [w.nextSubId],
         (((w.trace ++ [AtomEvent.startSync]) ++ [AtomEvent.subscribe w.nextSubId])
            ++ [AtomEvent.addFinalizer]) ++ [AtomEvent.sampleStatus]⟩ := rfl

/-- Helper: the evaluation context after one `makeQuery` body run. -/
theorem ctx_after_makeQuery {K A : Type} (create : LiveQueryConfig → Collection K A)
    (opts : QueryOptions) (w : AtomCtx) :
    (makeQuery create opts w).2.2
      = ⟨w.liveSubs ++ [w.nextSubId], w.nextSubId + 1, w.finalizers ++ [w.nextSubId],
         (((w.trace ++ [AtomEvent.createCollection]) ++ [AtomEvent.subscribe w.nextSubId])
            ++ [AtomEvent.addFinalizer]) ++ [AtomEvent.sampleStatus]⟩ := rfl

/-- Helper: releasing a freshly appended subscription removes exactly it. -/
theorem filter_bne_append_self (l : List Nat) (n : Nat) (h : ∀ s ∈ l, s < n) :
    (l ++ [n]).filter (fun s => s != n) = l := by
  rw [List.filter_append]
  have h1 : l.filter (fun s => s != n) = l :=
    List.filter_eq_self.mpr (fun a ha => bne_iff_ne.mpr (Nat.ne_of_lt (h a ha)))
  have h2 : [n].filter (fun s => s != n) = [] := by simp
  rw [h1, h2, List.append_nil]

/-- Helper: releasing the same subscription twice is the same as once. -/
theorem unsubscribe_idem (sid : Nat) (w : AtomCtx) :
    unsubscribe sid (unsubscribe sid w) = unsubscribe sid w := by
  unfold unsubscribe
  congr 1
  exact List.filter_eq_self.mpr (fun a ha => (List.mem_filter.mp ha).2)

/-- Helper: the subscribe count is additive over appended traces. -/
theorem subscribeCount_append (l1 l2 : List AtomEvent) :
    subscribeCount (l1 ++ l2) = subscribeCount l1 + subscribeCount l2 := by
  simp [subscribeCount, List.countP_append]

/-- Helper: the four effects of an atom-body evaluation contain exactly one
subscribe event, whichever non-subscribe effect they start with. -/
theorem subscribeCount_eval (tr : List AtomEvent) (e0 : AtomEvent) (n : Nat)
    (h : subscribeCount [e0] = 0) :
    subscribeCount ((((tr ++ [e0]) ++ [AtomEvent.subscribe n])
        ++ [AtomEvent.addFinalizer]) ++ [AtomEvent.sampleStatus]) = subscribeCount tr + 1 := by
  rw [subscribeCount_append, subscribeCount_append, subscribeCount_append,
    subscribeCount_append, h]
  have h2 : subscribeCount [AtomEvent.subscribe n] = 1 := rfl
  have h3 : subscribeCount [AtomEvent.addFinalizer] = 0 := rfl
  have h4 : subscribeCount [AtomEvent.sampleStatus] = 0 := rfl
  rw [h2, h3, h4]

/-! Claim theorems. -/

/-- C1: for every one of the five external statuses, the status-to-ResultState
mapping applied by every atom constructor — both at the first synchronous read
and inside every change-notification callback — produces exactly the §3
table's variant and no other: idle and loading give Initial with waiting true,
ready gives Success of the projected entries, error gives a Failure saying the
collection/query failed to load, cleaned-up gives a Failure saying it has been
cleaned up.  The first-read body and the callback body are the identical
mapping for each constructor. -/
theorem tdb_c1_status_translation {K A : Type} (c : Collection K A) :
    (collectionAtomInitialRead c = collectionAtomCallback c
      ∧ collectionAtomCallback c
          = statusTable c (fun c => c.entries.map Prod.snd)
              "Collection failed to load" "Collection has been cleaned up")
    ∧ (singleCollectionAtomInitialRead c = singleCollectionAtomCallback c
      ∧ singleCollectionAtomCallback c
          = statusTable c (fun c => c.entries.head?.map Prod.snd)
              "Collection failed to load" "Collection has been cleaned up")
    ∧ (queryAtomInitialRead c = queryAtomCallback c
      ∧ queryAtomCallback c
          = statusTable c
              (fun c =>
                if c.config.singleResult then QueryData.single ((c.entries.map Prod.snd).head?)
                else QueryData.many (c.entries.map Prod.snd))
              "Query failed to load" "Query collection has been cleaned up") :=
  ⟨⟨rfl, collection_callback_spec c⟩,
   ⟨rfl, single_callback_spec c⟩,
   ⟨rfl, query_callback_spec c⟩⟩

/-- C2: for every atom produced by makeCollectionAtom, makeSingleCollectionAtom
or makeQuery, and for every evaluation, the change-notification subscription is
established strictly before the collection's current status is sampled for the
initial synchronous return value: the effect trace of each evaluation is
exactly start-sync/create-collection, subscribe, add-finalizer, sample-status,
and the subscribe event sits at a strictly earlier position than the
sample-status event. -/
theorem tdb_c2_subscribe_before_sample {K A : Type} (c : Collection K A)
    (create : LiveQueryConfig → Collection K A) (opts : QueryOptions) :
    ((makeCollectionAtom c AtomCtx.init).2.2.trace
        = [AtomEvent.startSync, AtomEvent.subscribe 0, AtomEvent.addFinalizer,
           AtomEvent.sampleStatus]
      ∧ ∃ i j, i < j
          ∧ (makeCollectionAtom c AtomCtx.init).2.2.trace.get? i = some (AtomEvent.subscribe 0)
          ∧ (makeCollectionAtom c AtomCtx.init).2.2.trace.get? j = some AtomEvent.sampleStatus)
    ∧ ((makeSingleCollectionAtom c AtomCtx.init).2.2.trace
        = [AtomEvent.startSync, AtomEvent.subscribe 0, AtomEvent.addFinalizer,
           AtomEvent.sampleStatus]
      ∧ ∃ i j, i < j
          ∧ (makeSingleCollectionAtom c AtomCtx.init).2.2.trace.get? i
              = some (AtomEvent.subscribe 0)
          ∧ (makeSingleCollectionAtom c AtomCtx.init).2.2.trace.get? j
              = some AtomEvent.sampleStatus)
    ∧ ((makeQuery create opts AtomCtx.init).2.2.trace
        = [AtomEvent.createCollection, AtomEvent.subscribe 0, AtomEvent.addFinalizer,
           AtomEvent.sampleStatus]
      ∧ ∃ i j, i < j
          ∧ (makeQuery create opts AtomCtx.init).2.2.trace.get? i
              = some (AtomEvent.subscribe 0)
          ∧ (makeQuery create opts AtomCtx.init).2.2.trace.get? j
              = some AtomEvent.sampleStatus) :=
  ⟨⟨rfl, 1, 3, by omega, rfl, rfl⟩,
   ⟨rfl, 1, 3, by omega, rfl, rfl⟩,
   ⟨rfl, 1, 3, by omega, rfl, rfl⟩⟩

/-- C3: for every cell produced by the constructors, after every status
transition reported by the collection the value visible to readers is the
callback image of the most recent collection state observed; in particular a
Success value never survives as the visible value past a transition to error
or cleaned-up. -/
theorem tdb_c3_latest_status_wins {K A : Type} (c0 : Collection K A)
    (create : LiveQueryConfig → Collection K A) (opts : QueryOptions) (w : AtomCtx)
    (updates : List (Collection K A)) (h : updates ≠ []) :
    (cellValueAfter (makeCollectionAtom c0 w).1 collectionAtomCallback updates
        = collectionAtomCallback (updates.getLast h)
      ∧ ((updates.getLast h).status = CollectionStatus.error
            ∨ (updates.getLast h).status = CollectionStatus.cleanedUp →
          ∀ v, cellValueAfter (makeCollectionAtom c0 w).1 collectionAtomCallback updates
              ≠ ResultState.success v))
    ∧ (cellValueAfter (makeSingleCollectionAtom c0 w).1 singleCollectionAtomCallback updates
        = singleCollectionAtomCallback (updates.getLast h)
      ∧ ((updates.getLast h).status = CollectionStatus.error
            ∨ (updates.getLast h).status = CollectionStatus.cleanedUp →
          ∀ v, cellValueAfter (makeSingleCollectionAtom c0 w).1 singleCollectionAtomCallback updates
              ≠ ResultState.success v))
    ∧ (cellValueAfter (makeQuery create opts w).1 queryAtomCallback updates
        = queryAtomCallback (updates.getLast h)
      ∧ ((updates.getLast h).status = CollectionStatus.error
            ∨ (updates.getLast h).status = CollectionStatus.cleanedUp →
          ∀ v, cellValueAfter (makeQuery create opts w).1 queryAtomCallback updates
              ≠ ResultState.success v)) := by
  have e1 : cellValueAfter (makeCollectionAtom c0 w).1 collectionAtomCallback updates
      = collectionAtomCallback (updates.getLast h) :=
    foldl_replace_last collectionAtomCallback updates _ h
  have e2 : cellValueAfter (makeSingleCollectionAtom c0 w).1 singleCollectionAtomCallback updates
      = singleCollectionAtomCallback (updates.getLast h) :=
    foldl_replace_last singleCollectionAtomCallback updates _ h
  have e3 : cellValueAfter (makeQuery create opts w).1 queryAtomCallback updates
      = queryAtomCallback (updates.getLast h) :=
    foldl_replace_last queryAtomCallback updates _ h
  refine ⟨⟨e1, fun hs v => ?_⟩, ⟨e2, fun hs v => ?_⟩, ⟨e3, fun hs v => ?_⟩⟩
  · rw [e1, collection_callback_spec]
    exact statusTable_failure_not_success _ _ _ _ hs v
  · rw [e2, single_callback_spec]
    exact statusTable_failure_not_success _ _ _ _ hs v
  · rw [e3, query_callback_spec]
    exact statusTable_failure_not_success _ _ _ _ hs v

/-- Witness for C3 at a concrete run: one notification carrying an error
status; the visible value is the callback image of that last state and is not
a Success. -/
theorem tdb_c3_latest_status_wins_witness :
    ([cErrNat] : List (Collection Nat Nat)) ≠ []
    ∧ cellValueAfter (makeCollectionAtom cLoadNat AtomCtx.init).1 collectionAtomCallback [cErrNat]
        = collectionAtomCallback cErrNat
    ∧ ∀ v, cellValueAfter (makeCollectionAtom cLoadNat AtomCtx.init).1 collectionAtomCallback [cErrNat]
        ≠ ResultState.success v := by
  have hne : ([cErrNat] : List (Collection Nat Nat)) ≠ [] := by decide
  have t := tdb_c3_latest_status_wins cLoadNat engineNat optsNone AtomCtx.init [cErrNat] hne
  exact ⟨hne, t.1.1, t.1.2 (Or.inl rfl)⟩

/-- C4: for every query-descriptor function that returns the disabled marker
when invoked with the probe builder, the makeQueryConditional cell evaluates
to the absent value; during that evaluation no collection is created, no sync
is started and no subscription is opened — the whole evaluation result is
`(none, none, w)` and the context (trace, live subscriptions) is exactly the
one the evaluation started from. -/
theorem tdb_c4_disabled_no_effects {K A Q : Type} (qf : BuilderVal Q → Option (BuilderVal Q))
    (create : LiveQueryConfig → Collection K A) (opts : QueryOptions) (w : AtomCtx)
    (h : qf BuilderVal.proxy = none) :
    makeQueryConditional qf create opts w = (none, none, w)
    ∧ (makeQueryConditional qf create opts w).2.2.trace = w.trace
    ∧ (makeQueryConditional qf create opts w).2.2.liveSubs = w.liveSubs := by
  have e : makeQueryConditional qf create opts w = (none, none, w) := by
    simp [makeQueryConditional, h]
  exact ⟨e, by rw [e], by rw [e]⟩

/-- Witness for C4: the always-disabled descriptor yields the absent value and
leaves the fresh evaluation context untouched. -/
theorem tdb_c4_disabled_no_effects_witness :
    qfDisabled BuilderVal.proxy = none
    ∧ makeQueryConditional qfDisabled engineNat optsNone AtomCtx.init
        = (none, none, AtomCtx.init) :=
  ⟨rfl, (tdb_c4_disabled_no_effects qfDisabled engineNat optsNone AtomCtx.init rfl).1⟩

/-- C5: for every query-descriptor function that returns a non-null value when
invoked with the probe builder, and for every options value, the
makeQueryConditional cell delegates to makeQuery with that same descriptor and
options: initial value, created collection, evaluation context and the whole
emitted ResultState sequence coincide (the conditional sequence is the
makeQuery sequence). -/
theorem tdb_c5_enabled_delegates {K A Q : Type} (qf : BuilderVal Q → Option (BuilderVal Q))
    (create : LiveQueryConfig → Collection K A) (opts : QueryOptions) (w : AtomCtx)
    (updates : List (Collection K A)) (b : BuilderVal Q)
    (h : qf BuilderVal.proxy = some b) :
    (makeQueryConditional qf create opts w).1 = some (makeQuery create opts w).1
    ∧ (makeQueryConditional qf create opts w).2.1 = some (makeQuery create opts w).2.1
    ∧ (makeQueryConditional qf create opts w).2.2 = (makeQuery create opts w).2.2
    ∧ conditionalResultSequence qf create opts w updates
        = some (queryResultSequence create opts w updates) := by
  have e : makeQueryConditional qf create opts w
      = (some (makeQuery create opts w).1, some (makeQuery create opts w).2.1,
         (makeQuery create opts w).2.2) := by
    simp [makeQueryConditional, h]
  refine ⟨by rw [e], by rw [e], by rw [e], ?_⟩
  simp [conditionalResultSequence, e, queryResultSequence]

/-- Witness for C5: the identity-shaped enabled descriptor produces exactly
the makeQuery sequence for one ready-collection notification. -/
theorem tdb_c5_enabled_delegates_witness :
    qfEnabled BuilderVal.proxy = some BuilderVal.proxy
    ∧ conditionalResultSequence qfEnabled engineNat optsNone AtomCtx.init [cReadyNat]
        = some (queryResultSequence engineNat optsNone AtomCtx.init [cReadyNat]) :=
  ⟨rfl,
   (tdb_c5_enabled_delegates qfEnabled engineNat optsNone AtomCtx.init [cReadyNat]
      BuilderVal.proxy rfl).2.2.2⟩

/-- C6: invoking a query-descriptor with the stand-in proxy builder never
triggers real query execution and never throws, however many builder methods
are chained: every property access on the proxy yields a callable that
returns the proxy again (and records the flag as false), and any chain of
method calls lands on the proxy, never on a real query value. -/
theorem tdb_c6_proxy_chain_safe (Q : Type) (flag flag2 : Bool) (name : String)
    (args : List (BuilderVal Q)) (chain : List (String × List (BuilderVal Q))) :
    ((proxyGet Q flag2 name).2 args = BuilderVal.proxy
      ∧ (proxyGet Q flag2 name).1 = false)
    ∧ (applyProxyChain Q flag chain).1 = BuilderVal.proxy
    ∧ ∀ q, (applyProxyChain Q flag chain).1 ≠ BuilderVal.real q := by
  refine ⟨⟨rfl, rfl⟩, applyProxyChain_fst Q chain flag, fun q hq => ?_⟩
  rw [applyProxyChain_fst Q chain flag] at hq
  exact BuilderVal.noConfusion hq

/-- C7: the makeQueryUnsafe cell never throws (it is the total collapse
`Result.getOrElse … constUndefined` of the makeQuery cell) and at every point
of the emitted sequence its value is the projection value when the underlying
makeQuery cell holds Success, and the absent value when the underlying cell
holds Initial or Failure. -/
theorem tdb_c7_collapse {K A : Type} (create : LiveQueryConfig → Collection K A)
    (opts : QueryOptions) (w : AtomCtx) (updates : List (Collection K A)) :
    ( makeQueryUnsafe create opts w).1
        = Result.getOrElse (makeQuery create opts w).1 constUndefined
    ∧ (∀ v, cellValueAfter (makeQuery create opts w).1 queryAtomCallback updates
          = ResultState.success v → collapsedCellAfter create opts w updates = some v)
    ∧ (∀ b, cellValueAfter (makeQuery create opts w).1 queryAtomCallback updates
          = ResultState.initial b → collapsedCellAfter create opts w updates = none)
    ∧ (∀ m, cellValueAfter (makeQuery create opts w).1 queryAtomCallback updates
          = ResultState.failure m → collapsedCellAfter create opts w updates = none) := by
  refine ⟨rfl, ?_, ?_, ?_⟩ <;> intro x hx <;>
    simp [collapsedCellAfter, hx, Result.getOrElse, constUndefined]

/-- Witness for C7: with one ready notification the underlying cell holds
Success of the array projection and the collapsed cell holds exactly that
projection value. -/
theorem tdb_c7_collapse_witness :
    cellValueAfter (makeQuery engineNat optsNone AtomCtx.init).1 queryAtomCallback [cReadyNat]
        = ResultState.success (QueryData.many [10, 20])
    ∧ collapsedCellAfter engineNat optsNone AtomCtx.init [cReadyNat]
        = some (QueryData.many [10, 20]) := by
  have hx : cellValueAfter (makeQuery engineNat optsNone AtomCtx.init).1 queryAtomCallback [cReadyNat]
      = ResultState.success (QueryData.many [10, 20]) := by decide
  exact ⟨hx,
    (tdb_c7_collapse engineNat optsNone AtomCtx.init [cReadyNat]).2.1
      (QueryData.many [10, 20]) hx⟩

/-- C8 counterexample: the claim fails for makeQuery when the options carry
`startSync: false`.  With an engine that honours the requested config (sync is
started on creation exactly when `startSync` is true), one evaluation of
makeQuery with `{ startSync: false }` leaves the created collection not
syncing, and no start-sync trigger appears in the evaluation's effect
trace — so not every evaluation of every constructor triggers the collection
to begin syncing. -/
theorem tdb_c8_sync_counterexample :
    (makeQuery engineNat optsNoSync AtomCtx.init).2.1.syncStarted = false
    ∧ AtomEvent.startSync ∉ (makeQuery engineNat optsNoSync AtomCtx.init).2.2.trace := by
  decide

/-- C8 amended: makeCollectionAtom and makeSingleCollectionAtom call
startSyncImmediate on every evaluation — the resulting collection is syncing,
the call is idempotent, is a no-op on an already-syncing collection, and
changes nothing besides the sync flag; makeQuery instead hands
`startSync := options.startSync ?? true` to the collection it creates, so its
evaluations begin syncing by default but not when the options disable it. -/
theorem tdb_c8_sync_trigger {K A : Type} (c : Collection K A) (w : AtomCtx)
    (create : LiveQueryConfig → Collection K A) (opts : QueryOptions) :
    ((makeCollectionAtom c w).2.1 = startSyncImmediate c
      ∧ (makeCollectionAtom c w).2.1.syncStarted = true)
    ∧ ((makeSingleCollectionAtom c w).2.1 = startSyncImmediate c
      ∧ (makeSingleCollectionAtom c w).2.1.syncStarted = true)
    ∧ startSyncImmediate (startSyncImmediate c) = startSyncImmediate c
    ∧ (c.syncStarted = true → startSyncImmediate c = c)
    ∧ ((startSyncImmediate c).status = c.status
      ∧ (startSyncImmediate c).entries = c.entries
      ∧ (startSyncImmediate c).config = c.config)
    ∧ ((makeQuery create opts w).2.1 = create (resolveLiveQueryConfig opts)
      ∧ (resolveLiveQueryConfig opts).startSync = opts.startSync.getD true) := by
  refine ⟨⟨rfl, rfl⟩, ⟨rfl, rfl⟩, rfl, ?_, ⟨rfl, rfl, rfl⟩, rfl, rfl⟩
  intro h
  rcases c with ⟨st, es, ss, cfg⟩
  cases h
  rfl

/-- Witness for C8 amended: an already-syncing collection is unchanged by the
start-sync call performed by an evaluation. -/
theorem tdb_c8_sync_trigger_witness :
    cReadyNat.syncStarted = true ∧ startSyncImmediate cReadyNat = cReadyNat :=
  ⟨rfl, (tdb_c8_sync_trigger cReadyNat AtomCtx.init engineNat optsNone).2.2.2.1 rfl⟩

/-- C9: every evaluation of each constructor creates exactly one subscription
to the backing collection (live set and subscribe-event count grow by exactly
one) and registers exactly one finalizer, whose action releases exactly that
subscription: running it removes the created subscription and nothing else,
and running it twice is the same as once, so the subscription is never
double-released. -/
theorem tdb_c9_single_subscription {K A : Type} (c : Collection K A)
    (create : LiveQueryConfig → Collection K A) (opts : QueryOptions) (w : AtomCtx)
    (h : AtomCtx.Fresh w) :
    ((makeCollectionAtom c w).2.2.liveSubs = w.liveSubs ++ [w.nextSubId]
      ∧ (makeCollectionAtom c w).2.2.finalizers = w.finalizers ++ [w.nextSubId]
      ∧ subscribeCount (makeCollectionAtom c w).2.2.trace = subscribeCount w.trace + 1
      ∧ (unsubscribe w.nextSubId (makeCollectionAtom c w).2.2).liveSubs = w.liveSubs
      ∧ unsubscribe w.nextSubId (unsubscribe w.nextSubId (makeCollectionAtom c w).2.2)
          = unsubscribe w.nextSubId (makeCollectionAtom c w).2.2)
    ∧ ((makeSingleCollectionAtom c w).2.2.liveSubs = w.liveSubs ++ [w.nextSubId]
      ∧ (makeSingleCollectionAtom c w).2.2.finalizers = w.finalizers ++ [w.nextSubId]
      ∧ subscribeCount (makeSingleCollectionAtom c w).2.2.trace = subscribeCount w.trace + 1
      ∧ (unsubscribe w.nextSubId (makeSingleCollectionAtom c w).2.2).liveSubs = w.liveSubs
      ∧ unsubscribe w.nextSubId (unsubscribe w.nextSubId (makeSingleCollectionAtom c w).2.2)
          = unsubscribe w.nextSubId (makeSingleCollectionAtom c w).2.2)
    ∧ ((makeQuery create opts w).2.2.liveSubs = w.liveSubs ++ [w.nextSubId]
      ∧ (makeQuery create opts w).2.2.finalizers = w.finalizers ++ [w.nextSubId]
      ∧ subscribeCount (makeQuery create opts w).2.2.trace = subscribeCount w.trace + 1
      ∧ (unsubscribe w.nextSubId (makeQuery create opts w).2.2).liveSubs = w.liveSubs
      ∧ unsubscribe w.nextSubId (unsubscribe w.nextSubId (makeQuery create opts w).2.2)
          = unsubscribe w.nextSubId (makeQuery create opts w).2.2) := by
  rw [ctx_after_makeCollectionAtom, ctx_after_makeSingleCollectionAtom, ctx_after_makeQuery]
  refine ⟨⟨rfl, rfl, subscribeCount_eval w.trace AtomEvent.startSync w.nextSubId rfl, ?_, ?_⟩,
          ⟨rfl, rfl, subscribeCount_eval w.trace AtomEvent.startSync w.nextSubId rfl, ?_, ?_⟩,
          ⟨rfl, rfl, subscribeCount_eval w.trace AtomEvent.createCollection w.nextSubId rfl, ?_, ?_⟩⟩
    <;> first
      | exact unsubscribe_idem w.nextSubId _
      | simpa [unsubscribe] using filter_bne_append_self w.liveSubs w.nextSubId h.1

/-- Witness for C9: a fresh context is Fresh, and one makeCollectionAtom
evaluation from it creates exactly subscription 0, which the finalizer's
release action removes again. -/
theorem tdb_c9_single_subscription_witness :
    AtomCtx.Fresh AtomCtx.init
    ∧ (makeCollectionAtom cLoadNat AtomCtx.init).2.2.liveSubs
        = AtomCtx.init.liveSubs ++ [AtomCtx.init.nextSubId]
    ∧ (unsubscribe AtomCtx.init.nextSubId (makeCollectionAtom cLoadNat AtomCtx.init).2.2).liveSubs
        = AtomCtx.init.liveSubs := by
  have hfresh : AtomCtx.Fresh AtomCtx.init := by
    constructor <;> intro s hs <;> simp [AtomCtx.init] at hs
  have t := tdb_c9_single_subscription cLoadNat engineNat optsNone AtomCtx.init hfresh
  exact ⟨hfresh, t.1.1, t.1.2.2.2.1⟩

/-- C10: for every collection created by makeQuery whose configuration has
singleResult true, the Success value produced — at the first read and in
every callback, both being the same table mapping — is the first entry's
value, or the absent value when there are no entries; for every other
collection it is the ordered array of all entry values.  The decision is a
function of the collection configuration as read at each notification. -/
theorem tdb_c10_projection_mode {K A : Type} (c : Collection K A) :
    queryAtomCallback c
        = statusTable c
            (fun c =>
              if c.config.singleResult then QueryData.single ((c.entries.map Prod.snd).head?)
              else QueryData.many (c.entries.map Prod.snd))
            "Query failed to load" "Query collection has been cleaned up"
    ∧ queryAtomInitialRead c = queryAtomCallback c
    ∧ (c.status = CollectionStatus.ready → c.config.singleResult = true →
        queryAtomCallback c
          = ResultState.success (QueryData.single ((c.entries.map Prod.snd).head?)))
    ∧ (c.status = CollectionStatus.ready → c.config.singleResult = false →
        queryAtomCallback c
          = ResultState.success (QueryData.many (c.entries.map Prod.snd)))
    ∧ (c.status = CollectionStatus.ready → c.config.singleResult = true → c.entries = [] →
        queryAtomCallback c = ResultState.success (QueryData.single none)) := by
  refine ⟨query_callback_spec c, rfl, ?_, ?_, ?_⟩
  · intro h1 h2
    rw [query_callback_spec c]
    simp [statusTable, h1, h2]
  · intro h1 h2
    rw [query_callback_spec c]
    simp [statusTable, h1, h2]
  · intro h1 h2 h3
    rw [query_callback_spec c]
    simp [statusTable, h1, h2, h3]

/-- Witness for C10: a ready single-result collection with no entries yields
Success of the absent value. -/
theorem tdb_c10_projection_mode_witness :
    cSingleEmptyNat.status = CollectionStatus.ready
    ∧ cSingleEmptyNat.config.singleResult = true
    ∧ cSingleEmptyNat.entries = []
    ∧ queryAtomCallback cSingleEmptyNat = ResultState.success (QueryData.single none) :=
  ⟨rfl, rfl, rfl, (tdb_c10_projection_mode cSingleEmptyNat).2.2.2.2 rfl rfl rfl⟩
